import Mathlib

/-!
Shallow embedding of the MOLA LiDAR-ICP SLAM front-end (`src/src/LidarICP.cpp`)
and verification of the frozen claims about it.

Conventions of the embedding:
* C++ `double` values are embedded as exact rationals `ℚ`; comparisons of
  Euclidean norms (`CPose3D::norm()`, a square root) are embedded through the
  squared norm where the comparison is algebraically equivalent, and the
  real-valued norm `Real.sqrt ∘ normSq` is used in theorem statements.
* The external collaborators (the MRPT ICP kernel, the SLAM back-end futures,
  the world model, MRPT's Dijkstra pass over the local pose graph) are inputs
  of each embedded operation, exactly as the spec treats them: black boxes.
* `std::map` is embedded as a key-sorted association list (`mapSet` replaces
  on an equal key, as `operator[]` assignment does); `std::set` of id pairs
  as a `Finset`; the pose-graph edge multimap as a list of id pairs.
* IEEE-754 behaviour of the one division that can hit a zero divisor
  (the twist update) is embedded by `FloatVal`, a double with signed
  infinities and NaN.
-/

namespace LidarICP

/-- mola::INVALID_ID: the largest uint64, the sentinel for "no keyframe". -/
def INVALID_ID : Nat := 2 ^ 64 - 1

/-- mola::INVALID_FID: the largest uint64, the sentinel for "no factor". -/
def INVALID_FID : Nat := 2 ^ 64 - 1

/-- mrpt::poses::CPose3D: a 3x3 rotation matrix plus a translation vector,
entries embedded as exact rationals. The default-constructed pose (all
defaults) is the identity pose, as in mrpt. -/
structure CPose3D where
  r00 : ℚ := 1
  r01 : ℚ := 0
  r02 : ℚ := 0
  r10 : ℚ := 0
  r11 : ℚ := 1
  r12 : ℚ := 0
  r20 : ℚ := 0
  r21 : ℚ := 0
  r22 : ℚ := 1
  x : ℚ := 0
  y : ℚ := 0
  z : ℚ := 0
  deriving DecidableEq, Repr

/-- The identity pose, `mrpt::poses::CPose3D::Identity()`. -/
def CPose3D.identity : CPose3D := {}

/-- SE(3) composition `a + b` of mrpt (`composeFrom`): rotation `Ra * Rb`,
translation `ta + Ra * tb`. -/
def CPose3D.comp (a b : CPose3D) : CPose3D where
  r00 := a.r00 * b.r00 + a.r01 * b.r10 + a.r02 * b.r20
  r01 := a.r00 * b.r01 + a.r01 * b.r11 + a.r02 * b.r21
  r02 := a.r00 * b.r02 + a.r01 * b.r12 + a.r02 * b.r22
  r10 := a.r10 * b.r00 + a.r11 * b.r10 + a.r12 * b.r20
  r11 := a.r10 * b.r01 + a.r11 * b.r11 + a.r12 * b.r21
  r12 := a.r10 * b.r02 + a.r11 * b.r12 + a.r12 * b.r22
  r20 := a.r20 * b.r00 + a.r21 * b.r10 + a.r22 * b.r20
  r21 := a.r20 * b.r01 + a.r21 * b.r11 + a.r22 * b.r21
  r22 := a.r20 * b.r02 + a.r21 * b.r12 + a.r22 * b.r22
  x := a.x + a.r00 * b.x + a.r01 * b.y + a.r02 * b.z
  y := a.y + a.r10 * b.x + a.r11 * b.y + a.r12 * b.z
  z := a.z + a.r20 * b.x + a.r21 * b.y + a.r22 * b.z

/-- mrpt `a - b` (inverse composition `b⁻¹ ∘ a`, `inverseComposeFrom`): the
inverse of the rotation in `b` is its transpose, so the rotation is
`Rbᵀ * Ra` and the translation `Rbᵀ * (ta - tb)`. -/
def CPose3D.inverseCompose (a b : CPose3D) : CPose3D where
  r00 := b.r00 * a.r00 + b.r10 * a.r10 + b.r20 * a.r20
  r01 := b.r00 * a.r01 + b.r10 * a.r11 + b.r20 * a.r21
  r02 := b.r00 * a.r02 + b.r10 * a.r12 + b.r20 * a.r22
  r10 := b.r01 * a.r00 + b.r11 * a.r10 + b.r21 * a.r20
  r11 := b.r01 * a.r01 + b.r11 * a.r11 + b.r21 * a.r21
  r12 := b.r01 * a.r02 + b.r11 * a.r12 + b.r21 * a.r22
  r20 := b.r02 * a.r00 + b.r12 * a.r10 + b.r22 * a.r20
  r21 := b.r02 * a.r01 + b.r12 * a.r11 + b.r22 * a.r21
  r22 := b.r02 * a.r02 + b.r12 * a.r12 + b.r22 * a.r22
  x := b.r00 * (a.x - b.x) + b.r10 * (a.y - b.y) + b.r20 * (a.z - b.z)
  y := b.r01 * (a.x - b.x) + b.r11 * (a.y - b.y) + b.r21 * (a.z - b.z)
  z := b.r02 * (a.x - b.x) + b.r12 * (a.y - b.y) + b.r22 * (a.z - b.z)

/-- Squared Euclidean norm of the translation part; `CPose3D::norm()` is its
square root. -/
def CPose3D.normSq (p : CPose3D) : ℚ := p.x * p.x + p.y * p.y + p.z * p.z

/-- The real-valued translation norm `CPose3D::norm()`. -/
noncomputable def CPose3D.rnorm (p : CPose3D) : ℝ := Real.sqrt ((p.normSq : ℚ) : ℝ)

/-- Decidable embedding of the comparison `p.norm() > t` of the source:
`√s > t` iff `t < 0` or `t² < s` (for the nonnegative radicand `s`). -/
def CPose3D.distGt (p : CPose3D) (t : ℚ) : Bool :=
  decide (t < 0) || decide (t * t < p.normSq)

/-- A double with IEEE-754 signed infinities and NaN, for the twist update
whose divisor can be zero. -/
inductive FloatVal where
  | finite (q : ℚ)
  | posInf
  | negInf
  | nan
  deriving DecidableEq, Repr

/-- Whether a `FloatVal` is a finite double. -/
def FloatVal.isFinite : FloatVal → Bool
  | .finite _ => true
  | _ => false

/-- IEEE-754 product of a double with a finite double `q`. -/
def FloatVal.mulQ : FloatVal → ℚ → FloatVal
  | .finite a, q => .finite (a * q)
  | .posInf, q => if 0 < q then .posInf else if q < 0 then .negInf else .nan
  | .negInf, q => if 0 < q then .negInf else if q < 0 then .posInf else .nan
  | .nan, _ => .nan

/-- IEEE-754 quotient of two finite doubles: `a / 0` is `±∞` for `a ≠ 0`
and NaN for `a = 0`. -/
def FloatVal.divQ (a d : ℚ) : FloatVal :=
  if d ≠ 0 then .finite (a / d)
  else if 0 < a then .posInf
  else if a < 0 then .negInf
  else .nan

/-- mrpt::math::TTwist3D restricted to the linear components the source uses
(the angular part carries a TODO in the source and stays zero). -/
structure Twist where
  vx : FloatVal := .finite 0
  vy : FloatVal := .finite 0
  vz : FloatVal := .finite 0
  deriving DecidableEq, Repr

/-- Key-sorted association list standing for a `std::map`; `mapSet` is
`m[k] = v` (replace on an equal key, insert keeping key order otherwise). -/
def mapSet {κ α : Type} [LinearOrder κ] (k : κ) (v : α) :
    List (κ × α) → List (κ × α)
  | [] => [(k, v)]
  | (k', v') :: rest =>
    if k < k' then (k, v) :: (k', v') :: rest
    else if k = k' then (k, v) :: rest
    else (k', v') :: mapSet k v rest

/-- `std::map::erase(k)`: drop the entry with key `k`, if present. -/
def mapErase {κ α : Type} [DecidableEq κ] (k : κ) :
    List (κ × α) → List (κ × α)
  | [] => []
  | (k', v') :: rest => if k = k' then rest else (k', v') :: mapErase k rest

/-- Lookup in the association list (`std::map::find`). -/
def mapGet? {κ α : Type} [DecidableEq κ] (k : κ) : List (κ × α) → Option α
  | [] => none
  | (k', v') :: rest => if k = k' then some v' else mapGet? k rest

/-- The key sequence of the association list. -/
def mapKeys {κ α : Type} (m : List (κ × α)) : List κ := m.map Prod.fst

/-- mrpt::obs::CObservation as the front-end consumes it: a sensor label,
a timestamp (seconds since the epoch; the default-constructed time point is
`0`), whether `insertObservationPtr` can turn it into a point cloud, and an
identity token for the point cloud built from it. -/
structure CObservation where
  sensorLabel : String
  timestamp : ℚ
  convertible : Bool
  cloud : Nat
  deriving DecidableEq, Repr

/-- The bounded local pose graph (`mrpt::graphs::CNetworkOfPoses3D`): a root,
a node map `id → pose wrt root`, and the edge multimap keyed by id pairs. -/
structure LocalPoseGraph where
  root : Nat := 0
  nodes : List (Nat × CPose3D) := []
  edges : List (Nat × Nat) := []
  deriving DecidableEq, Repr

/-- `insertEdgeAtEnd(a, b, pose)` of CNetworkOfPoses: append an edge keyed
`(a, b)`. -/
def LocalPoseGraph.insertEdgeAtEnd (g : LocalPoseGraph) (a b : Nat) :
    LocalPoseGraph :=
  { g with edges := g.edges ++ [(a, b)] }

/-- The front-end state `LidarICP::MethodState` as used by the source. -/
structure MethodState where
  last_obs : Option CObservation := none
  last_obs_tim : ℚ := 0
  last_points : Option Nat := none
  last_iter_twist : Twist := {}
  last_kf : Nat := INVALID_ID
  accum_since_last_kf : CPose3D := {}
  local_pose_graph : LocalPoseGraph := {}
  local_pcs : List (Nat × Nat) := []
  checked_KF_pairs : Finset (Nat × Nat) := ∅
  deriving DecidableEq

/-- The configuration parameters the embedded operations read. -/
structure Params where
  min_dist_xyz_between_keyframes : ℚ
  min_time_between_scans : ℚ := 0
  min_icp_goodness : ℚ := 0
  max_KFs_local_graph : Nat
  deriving DecidableEq, Repr

/-- The external collaborators of one odometry task, as inputs: the ICP output
for the scan pair, the back-end responses to `addKeyFrame` and `addFactor`,
the pose estimates the external MRPT Dijkstra pass writes for the non-root
nodes (in the ascending-id order of the node map), and the world model. -/
structure OdomEnv where
  icp_rel_pose : CPose3D
  icp_goodness : ℚ
  kf_success : Bool
  new_kf_id : Option Nat
  factor_success : Bool
  new_factor_id : Option Nat
  dijkstra : List (Nat × CPose3D)
  has_worldmodel : Bool
  neighbors : Nat → Finset Nat

/-- The payload of a probe task (`LidarICP::DataForCheckEdges`); the point
cloud fields are `Option` because `local_pcs[id]` default-constructs a null
shared pointer when the id is absent. -/
structure DataForCheckEdges where
  to_id : Nat
  from_id : Nat
  to_pc : Option Nat
  from_pc : Option Nat
  init_guess_to_wrt_from : CPose3D
  deriving DecidableEq, Repr

/-- The nodes, point clouds and edges rewritten by the eviction loop of
`checkForNearbyKFs`. -/
structure GraphCut where
  nodes : List (Nat × CPose3D)
  pcs : List (Nat × Nat)
  edges : List (Nat × Nat)
  deriving DecidableEq, Repr

/-- `getAdjacencyMatrix` restricted to one row: the ids sharing an edge with
`id`, in either direction. -/
def adjOf (edges : List (Nat × Nat)) (id : Nat) : List Nat :=
  edges.filterMap fun e =>
    if e.1 = id then some e.2 else if e.2 = id then some e.1 else none

/-- For each `other` adjacent to `id`, erase every edge keyed `(id, other)`
or `(other, id)` — the inner loop of the eviction. -/
def eraseIncident (id : Nat) (others : List Nat) (edges : List (Nat × Nat)) :
    List (Nat × Nat) :=
  others.foldl
    (fun es other =>
      (es.filter fun e => e ≠ (id, other)).filter fun e => e ≠ (other, id))
    edges

/-- One step of the eviction loop: erase the node, its point cloud and its
incident edges. -/
def removeNode (adj : Nat → List Nat) (id : Nat) (g : GraphCut) : GraphCut where
  nodes := mapErase id g.nodes
  pcs := mapErase id g.pcs
  edges := eraseIncident id (adj id) g.edges

/-- The eviction loop on the reversed distance map (largest norm first):
while `|nodes| > maxKF`, pop the largest remaining distance entry and remove
that node. When the distance map runs out first, the C++ loop dereferences
`rbegin()` of an empty map; the embedding stops there and reports `true` in
the last component (the loop has no safe meaning from that point on). -/
def evictAux (maxKF : Nat) (adj : Nat → List Nat) :
    List (ℚ × Nat) → GraphCut → List (ℚ × Nat) × GraphCut × Bool
  | revKfd, g =>
    if g.nodes.length ≤ maxKF then (revKfd, g, false)
    else
      match revKfd with
      | [] => ([], g, true)
      | top :: rest => evictAux maxKF adj rest (removeNode adj top.2 g)

/-- The eviction loop of `checkForNearbyKFs` on the ascending distance map
`KF_distances`; returns the remaining distance entries, the surviving
nodes/clouds/edges, and whether the C++ loop fell off the empty map. -/
def evictLoop (maxKF : Nat) (adj : Nat → List Nat) (kfd : List (ℚ × Nat))
    (g : GraphCut) : List (ℚ × Nat) × GraphCut × Bool :=
  let r := evictAux maxKF adj kfd.reverse g
  (r.1.reverse, r.2.1, r.2.2)

/-- `KF_distances`: iterate the node map in ascending id order and assign
`m[norm(pose)] = id`; keyed by the squared norm, which orders and collapses
exactly as the norm does. Equal norms overwrite, as in `std::map`. -/
def buildKFDistances (nodes : List (Nat × CPose3D)) : List (ℚ × Nat) :=
  nodes.foldl (fun m kv => mapSet kv.2.normSq kv.1 m) []

/-- The normalized unordered pair `(min, max)` the source uses as the key of
`checked_KF_pairs`. -/
def normPair (a b : Nat) : Nat × Nat := (min a b, max a b)

/-- The median-distance candidate: `begin()` advanced by `size / 2` in the
ascending distance map. -/
def selectCandidate (kfd : List (ℚ × Nat)) : Nat :=
  (kfd.getD (kfd.length / 2) ((0 : ℚ), 0)).2

/-- The `edge_already_exists` flag of `checkForNearbyKFs`, exactly as
written in the source: id adjacency first, then the `checked_KF_pairs`
lookup, then the world-model consultation — whose branch assigns `false`
when a neighbor is reported. -/
def edgeFlag (env : OdomEnv) (root kf_id : Nat)
    (checked : Finset (Nat × Nat)) : Bool :=
  let e1 : Bool := decide (|(kf_id : Int) - (root : Int)| < 2)
  let e2 : Bool := if normPair kf_id root ∈ checked then true else e1
  if !e2 && env.has_worldmodel then
    if root ∈ env.neighbors kf_id then false else e2
  else e2

/-- The candidate selection and dispatch decision of `checkForNearbyKFs`
after the eviction loop: when the distance map is nonempty, pick the
median-distance node, compute `edge_already_exists`, and dispatch a probe
task when the flag is still false, recording the normalized pair. -/
def maybeDispatch (env : OdomEnv) (root : Nat) (kfd : List (ℚ × Nat))
    (nodes : List (Nat × CPose3D)) (pcs : List (Nat × Nat))
    (checked : Finset (Nat × Nat)) :
    Option DataForCheckEdges × Finset (Nat × Nat) :=
  match kfd with
  | [] => (none, checked)
  | _ :: _ =>
    let kf_id := selectCandidate kfd
    if !(edgeFlag env root kf_id checked) then
      (some { to_id := kf_id, from_id := root,
              to_pc := mapGet? kf_id pcs, from_pc := mapGet? root pcs,
              init_guess_to_wrt_from := (mapGet? kf_id nodes).getD {} },
       insert (normPair kf_id root) checked)
    else (none, checked)

/-- `LidarICP::checkForNearbyKFs`: re-root the graph at `last_kf`, clear the
node map and seed the root with the identity, take the external Dijkstra
estimates, build `KF_distances`, evict far nodes, then maybe dispatch one
probe task. Returns the new state, the dispatched task if any, and the
eviction-divergence marker. -/
def checkForNearbyKFs (p : Params) (env : OdomEnv) (st : MethodState) :
    MethodState × Option DataForCheckEdges × Bool :=
  let root := st.last_kf
  let nodes0 := mapSet root CPose3D.identity env.dijkstra
  let kfd := buildKFDistances nodes0
  let adj := adjOf st.local_pose_graph.edges
  let ev := evictLoop p.max_KFs_local_graph adj kfd
    { nodes := nodes0, pcs := st.local_pcs, edges := st.local_pose_graph.edges }
  let md := maybeDispatch env root ev.1 ev.2.1.nodes ev.2.1.pcs
    st.checked_KF_pairs
  ({ st with
      local_pose_graph := { root := root, nodes := ev.2.1.nodes,
                            edges := ev.2.1.edges },
      local_pcs := ev.2.1.pcs,
      checked_KF_pairs := md.2 },
   md.1, ev.2.2)

/-- The outcome of one odometry task, mirroring the exits of
`doProcessNewObservation`: the time-gap drop, the bootstrap return, the
conversion-failure return, the task-boundary catch of an `ASSERT_` throw,
and the normal completion carrying whether a keyframe was promoted, the
dispatched probe task if any, and the eviction-divergence marker. -/
inductive TaskOutcome where
  | droppedTooSoon
  | firstCloud
  | conversionFailed
  | exceptionCaught
  | ok (promoted : Bool) (probe : Option DataForCheckEdges)
      (evictionDiverged : Bool)
  deriving DecidableEq, Repr

/-- `mrpt::system::timeDifference(a, b) = b - a` in seconds. -/
def timeDifference (a b : ℚ) : ℚ := b - a

/-- The `dt` of the odometry task: the time difference to the previous
observation, or `0` when there is no previous timestamp. -/
def computeDt (last_obs_tim this_tim : ℚ) : ℚ :=
  if last_obs_tim ≠ 0 then timeDifference last_obs_tim this_tim else 0

/-- The constant-velocity first guess fed to ICP:
`(vx*dt, vy*dt, vz*dt, 0, 0, 0)`. -/
def initGuessFromTwist (tw : Twist) (dt : ℚ) :
    FloatVal × FloatVal × FloatVal :=
  (tw.vx.mulQ dt, tw.vy.mulQ dt, tw.vz.mulQ dt)

/-- The twist update after registration: `(x/dt, y/dt, z/dt)` with no guard
on `dt = 0`. -/
def twistFromRel (rel : CPose3D) (dt : ℚ) : Twist where
  vx := FloatVal.divQ rel.x dt
  vy := FloatVal.divQ rel.y dt
  vz := FloatVal.divQ rel.z dt

/-- The tail of the odometry task: run `checkForNearbyKFs` when more than one
local point cloud is stored. -/
def maybeNearby (p : Params) (env : OdomEnv) (st : MethodState)
    (promoted : Bool) : MethodState × TaskOutcome :=
  if 1 < st.local_pcs.length then
    let r := checkForNearbyKFs p env st
    (r.1, .ok promoted r.2.1 r.2.2)
  else (st, .ok promoted none false)

/-- The promotion block of `doProcessNewObservation`: await `addKeyFrame`
(ASSERT on failure), store the new point cloud, await `addFactor` when a
previous keyframe exists (ASSERT on failure) and append the odometry edge,
then reset the accumulator, advance `last_kf` and fall through to the
nearby-KF check. An `ASSERT_` throw is caught at the task boundary, keeping
every mutation made before it. -/
def promoteKF (p : Params) (env : OdomEnv) (o : CObservation)
    (st : MethodState) : MethodState × TaskOutcome :=
  if env.kf_success = true then
    match env.new_kf_id with
    | some kid =>
      if kid ≠ INVALID_ID then
        let st1 := { st with local_pcs := mapSet kid o.cloud st.local_pcs }
        if st1.last_kf ≠ INVALID_ID then
          if env.factor_success = true then
            match env.new_factor_id with
            | some fid =>
              if fid ≠ INVALID_FID then
                let st2 := { st1 with local_pose_graph :=
                  st1.local_pose_graph.insertEdgeAtEnd kid st1.last_kf }
                let st3 := { st2 with accum_since_last_kf := {},
                                      last_kf := kid }
                maybeNearby p env st3 true
              else (st1, .exceptionCaught)
            | none => (st1, .exceptionCaught)
          else (st1, .exceptionCaught)
        else
          let st3 := { st1 with accum_since_last_kf := {}, last_kf := kid }
          maybeNearby p env st3 true
      else (st, .exceptionCaught)
    | none => (st, .exceptionCaught)
  else (st, .exceptionCaught)

/-- The registration stage of `doProcessNewObservation` once a previous
point cloud exists and the conversion succeeded: the twist update, the
accumulator update, the promotion decision and the nearby-KF check. -/
def odomCore (p : Params) (env : OdomEnv) (o : CObservation) (dt : ℚ)
    (st : MethodState) : MethodState × TaskOutcome :=
  let rel_pose := env.icp_rel_pose
  let st := { st with last_iter_twist := twistFromRel rel_pose dt }
  let st := { st with accum_since_last_kf :=
    st.accum_since_last_kf.comp rel_pose }
  if p.min_icp_goodness < env.icp_goodness ∧
      st.accum_since_last_kf.distGt p.min_dist_xyz_between_keyframes
        = true then
    promoteKF p env o st
  else
    maybeNearby p env st false

/-- `LidarICP::doProcessNewObservation`: the time-gap filter, the conversion
to a point cloud, the shift of `last_obs`/`last_obs_tim`/`last_points`, the
bootstrap and conversion-failure returns, then the registration stage. -/
def doProcessNewObservation (p : Params) (env : OdomEnv) (st : MethodState)
    (o : CObservation) : MethodState × TaskOutcome :=
  if st.last_obs_tim ≠ 0 ∧
      timeDifference st.last_obs_tim o.timestamp < p.min_time_between_scans
  then (st, .droppedTooSoon)
  else
    let have_points := o.convertible
    let last_obs_tim := st.last_obs_tim
    let last_points := st.last_points
    let st := { st with last_obs := some o, last_obs_tim := o.timestamp,
                        last_points := some o.cloud }
    match last_points with
    | none => (st, .firstCloud)
    | some _ =>
      if have_points = false then (st, .conversionFailed)
      else odomCore p env o (computeDt last_obs_tim o.timestamp) st

/-- The external collaborators of one probe task: the ICP output and the
back-end response to `addFactor`. -/
structure ProbeEnv where
  icp_rel_pose : CPose3D
  icp_goodness : ℚ
  factor_success : Bool
  new_factor_id : Option Nat
  deriving DecidableEq, Repr

/-- The outcome of one probe task: rejected by the acceptance test, accepted
with the factor added and the edge appended, or an `ASSERT_`/null-pointer
throw caught at the task boundary. -/
inductive ProbeOutcome where
  | exceptionCaught
  | rejected
  | factorAdded
  deriving DecidableEq, Repr

/-- Decidable embedding of `correction / (init_norm + 0.01) < 0.20` over the
squared correction `c` and squared guess norm `i`: equivalent to
`√c < √i/5 + 1/500`, squared out twice (see `ratioLtFifth_iff`). -/
def ratioLtFifth (c i : ℚ) : Bool :=
  let L := c - i / 25 - 1 / 250000
  decide (L < 0) || decide (L * L < i / 1562500)

/-- `LidarICP::doCheckForNonAdjacentKFs`: assert the clouds are non-null, run
ICP via the environment, compute the correction against the first guess, and
accept iff the goodness clears `min_icp_goodness` and the correction stays
under 20% of the guess norm (plus 0.01); on acceptance await `addFactor`
(ASSERT on failure) and append the edge to the local graph. -/
def doCheckForNonAdjacentKFs (p : Params) (env : ProbeEnv)
    (d : DataForCheckEdges) (st : MethodState) : MethodState × ProbeOutcome :=
  match d.from_pc, d.to_pc with
  | some _, some _ =>
    let rel_pose := env.icp_rel_pose
    let init_guess := d.init_guess_to_wrt_from
    let corrSq := (rel_pose.inverseCompose init_guess).normSq
    if p.min_icp_goodness < env.icp_goodness ∧
        ratioLtFifth corrSq init_guess.normSq = true then
      if env.factor_success = true then
        match env.new_factor_id with
        | some fid =>
          if fid ≠ INVALID_FID then
            ({ st with local_pose_graph :=
                st.local_pose_graph.insertEdgeAtEnd d.from_id d.to_id },
             .factorAdded)
          else (st, .exceptionCaught)
        | none => (st, .exceptionCaught)
      else (st, .exceptionCaught)
    else (st, .rejected)
  | _, _ => (st, .exceptionCaught)

/-- The result of `LidarICP::onNewObservation`: the front-end state (which
the method never touches), the throttled-warning registry, whether the task
was enqueued and whether the drop warning was emitted. -/
structure ObsIngress where
  st : MethodState
  lastWarn : Option ℚ
  enqueued : Bool
  warned : Bool

/-- Modelled from the spec: `MRPT_LOG_THROTTLE_WARN(period, msg)` is an
external mrpt logging macro whose implementation is not in this repository;
the spec says the drop warning fires at most once per 5 s. Model: emit iff
no warning was emitted yet or at least `period` elapsed since the last one,
recording the emission time. -/
def throttleWarn (period now : ℚ) : Option ℚ → Bool × Option ℚ
  | none => (true, some now)
  | some t => if period ≤ now - t then (true, some now) else (false, some t)

/-- `LidarICP::onNewObservation`: drop foreign sensor labels silently; when
the odometry pool reports more than one pending task, drop with the
throttled warning; otherwise enqueue the task. The front-end state is never
mutated here. -/
def onNewObservation (raw_sensor_label : String) (pending : Nat) (now : ℚ)
    (st : MethodState) (lastWarn : Option ℚ) (o : CObservation) :
    ObsIngress :=
  if o.sensorLabel ≠ raw_sensor_label then
    { st := st, lastWarn := lastWarn, enqueued := false, warned := false }
  else if 1 < pending then
    let w := throttleWarn 5 now lastWarn
    { st := st, lastWarn := w.2, enqueued := false, warned := w.1 }
  else
    { st := st, lastWarn := lastWarn, enqueued := true, warned := false }

/-- One invocation of `checkForNearbyKFs` in a run, carrying everything the
rest of the pipeline sets between invocations; only `checked_KF_pairs` is
threaded through the run itself. -/
structure CheckCall where
  p : Params
  env : OdomEnv
  root : Nat
  edges : List (Nat × Nat)
  pcs : List (Nat × Nat)

/-- The state a `CheckCall` runs against, with the threaded `checked` set. -/
def callState (c : CheckCall) (checked : Finset (Nat × Nat)) : MethodState :=
  { last_kf := c.root,
    local_pose_graph := { root := c.root, nodes := [], edges := c.edges },
    local_pcs := c.pcs,
    checked_KF_pairs := checked }

/-- A run of `checkForNearbyKFs` invocations threading `checked_KF_pairs`,
collecting the normalized pair of every dispatched probe task. -/
def runChecks : List CheckCall → Finset (Nat × Nat) → List (Nat × Nat)
  | [], _ => []
  | c :: rest, checked =>
    let r := checkForNearbyKFs c.p c.env (callState c checked)
    match r.2.1 with
    | some t => normPair t.to_id t.from_id ::
        runChecks rest r.1.checked_KF_pairs
    | none => runChecks rest r.1.checked_KF_pairs

/-! Concrete inputs used by the per-claim counterexamples and witnesses. -/

/-- C1 concrete: parameters with a roomy graph cap. -/
def c1p : Params := { min_dist_xyz_between_keyframes := 1, max_KFs_local_graph := 10 }

/-- C1 concrete: the Dijkstra estimate of node 5, two meters from the root. -/
def c1pose : CPose3D := { x := 2 }

/-- C1 concrete: environment whose world model already links keyframes 5 and
10. -/
def c1env : OdomEnv :=
  { icp_rel_pose := {}, icp_goodness := 0, kf_success := true,
    new_kf_id := none, factor_success := true, new_factor_id := none,
    dijkstra := [(5, c1pose)], has_worldmodel := true,
    neighbors := fun n => if n = 5 then {10} else (∅ : Finset Nat) }

/-- C1 concrete: state rooted at keyframe 10 with clouds for 5 and 10. -/
def c1st : MethodState := { last_kf := 10, local_pcs := [(5, 55), (10, 110)] }

/-- C2 concrete: parameters for the conversion-failure run. -/
def c2p : Params :=
  { min_dist_xyz_between_keyframes := 1, min_icp_goodness := 1/2,
    max_KFs_local_graph := 5 }

/-- C2 concrete: a benign environment (never consulted on this path). -/
def c2env : OdomEnv :=
  { icp_rel_pose := { x := 2 }, icp_goodness := 9/10, kf_success := true,
    new_kf_id := some 1, factor_success := true, new_factor_id := some 1,
    dijkstra := [], has_worldmodel := false,
    neighbors := fun _ => (∅ : Finset Nat) }

/-- C2 concrete: a state that already holds a previous scan at time 1. -/
def c2st : MethodState := { last_obs_tim := 1, last_points := some 7 }

/-- C2 concrete: an observation that cannot become a point cloud. -/
def c2obs : CObservation :=
  { sensorLabel := "lidar", timestamp := 2, convertible := false, cloud := 8 }

/-- C3 concrete: promotion parameters. -/
def c3p : Params :=
  { min_dist_xyz_between_keyframes := 1, min_icp_goodness := 1/2,
    max_KFs_local_graph := 5 }

/-- C3 concrete: a registration two meters long with goodness 0.9 and a
well-behaved back-end. -/
def c3env : OdomEnv :=
  { icp_rel_pose := { x := 2 }, icp_goodness := 9/10, kf_success := true,
    new_kf_id := some 1, factor_success := true, new_factor_id := some 1,
    dijkstra := [], has_worldmodel := false,
    neighbors := fun _ => (∅ : Finset Nat) }

/-- C3 concrete: a state holding a previous scan. -/
def c3st : MethodState := { last_obs_tim := 1, last_points := some 7 }

/-- C3 concrete: the convertible follow-up observation. -/
def c3obs : CObservation :=
  { sensorLabel := "lidar", timestamp := 2, convertible := true, cloud := 8 }

/-- C4 concrete: parameters of the first-promotion run. -/
def c4p : Params :=
  { min_dist_xyz_between_keyframes := 1, min_icp_goodness := 1/2,
    max_KFs_local_graph := 5 }

/-- C4 concrete: a promoting environment allocating keyframe id 1. -/
def c4env : OdomEnv :=
  { icp_rel_pose := { x := 2 }, icp_goodness := 9/10, kf_success := true,
    new_kf_id := some 1, factor_success := true, new_factor_id := some 1,
    dijkstra := [], has_worldmodel := false,
    neighbors := fun _ => (∅ : Finset Nat) }

/-- C4 concrete: a fresh state holding only the bootstrap scan. -/
def c4st : MethodState := { last_obs_tim := 1, last_points := some 7 }

/-- C4 concrete: the observation that triggers the first promotion. -/
def c4obs : CObservation :=
  { sensorLabel := "lidar", timestamp := 2, convertible := true, cloud := 8 }

/-- C4 concrete: a graph cut whose node and cloud key sets agree, for the
preservation witness. -/
def c4cut : GraphCut :=
  { nodes := [(1, {}), (2, { x := 5 }), (3, { x := 7 })],
    pcs := [(1, 10), (2, 20), (3, 30)], edges := [(2, 1), (3, 2)] }

/-- C5 concrete: a pose five meters from the root (squared norm 25). -/
def c5pose : CPose3D := { x := 5 }

/-- C5 concrete: four nodes, three of them sharing the norm 5. -/
def c5nodes : List (Nat × CPose3D) :=
  [(1, {}), (2, c5pose), (3, c5pose), (4, c5pose)]

/-- C5 concrete: the graph cut for the four-node run. -/
def c5g : GraphCut :=
  { nodes := c5nodes, pcs := [(1, 10), (2, 20), (3, 30), (4, 40)],
    edges := [] }

/-- C5 concrete: three nodes, two sharing the norm 5, rooted at node 1. -/
def c5nodes3 : List (Nat × CPose3D) := [(1, {}), (2, c5pose), (3, c5pose)]

/-- C5 concrete: the graph cut for the three-node run. -/
def c5g3 : GraphCut :=
  { nodes := c5nodes3, pcs := [(1, 10), (2, 20), (3, 30)], edges := [] }

/-- C6 concrete: probe acceptance parameters with `min_icp_goodness = 0.5`. -/
def c6p : Params :=
  { min_dist_xyz_between_keyframes := 1, min_icp_goodness := 1/2,
    max_KFs_local_graph := 5 }

/-- C6 concrete: a probe task whose first guess is one meter long. -/
def c6d : DataForCheckEdges :=
  { to_id := 5, from_id := 10, to_pc := some 2, from_pc := some 1,
    init_guess_to_wrt_from := { x := 1 } }

/-- C6 concrete: ICP answers goodness 0.9 but moves the pose by 0.3535 m,
exactly 35% of the guess norm plus the 0.01 regularizer. -/
def c6env : ProbeEnv :=
  { icp_rel_pose := { x := 1 + 707/2000 }, icp_goodness := 9/10,
    factor_success := true, new_factor_id := some 1 }

/-- C7 concrete: an environment without a world model. -/
def c7env : OdomEnv :=
  { icp_rel_pose := {}, icp_goodness := 0, kf_success := true,
    new_kf_id := none, factor_success := true, new_factor_id := none,
    dijkstra := [(5, { x := 2 })], has_worldmodel := false,
    neighbors := fun _ => (∅ : Finset Nat) }

/-- C7 concrete: one `checkForNearbyKFs` invocation rooted at 10 that selects
candidate 5. -/
def c7call : CheckCall :=
  { p := { min_dist_xyz_between_keyframes := 1, max_KFs_local_graph := 10 },
    env := c7env, root := 10, edges := [], pcs := [(5, 55), (10, 110)] }

/-- C7 concrete: the probe task the first invocation dispatches. -/
def c7task : DataForCheckEdges :=
  { to_id := 5, from_id := 10, to_pc := some 55, from_pc := some 110,
    init_guess_to_wrt_from := { x := 2 } }

/-- C8 concrete: an observation carrying the configured label. -/
def c8obs : CObservation :=
  { sensorLabel := "lidar", timestamp := 3, convertible := true, cloud := 8 }

/-- C9 concrete: load-free parameters with `min_time_between_scans = 0`. -/
def c9p : Params :=
  { min_dist_xyz_between_keyframes := 1, max_KFs_local_graph := 5 }

/-- C9 concrete: an environment whose registration moves 1 m in x and 2 m in
z. -/
def c9env : OdomEnv :=
  { icp_rel_pose := { x := 1, z := 2 }, icp_goodness := 0, kf_success := true,
    new_kf_id := none, factor_success := true, new_factor_id := none,
    dijkstra := [], has_worldmodel := false,
    neighbors := fun _ => (∅ : Finset Nat) }

/-- C9 concrete: a state with a finite twist and a previous scan at time 5. -/
def c9st : MethodState :=
  { last_obs_tim := 5, last_points := some 7,
    last_iter_twist := { vx := .finite 1, vy := .finite 2, vz := .finite 3 } }

/-- C9 concrete: a second observation carrying the same timestamp 5. -/
def c9obs : CObservation :=
  { sensorLabel := "lidar", timestamp := 5, convertible := true, cloud := 8 }

/-- C10 concrete: promotion parameters. -/
def c10p : Params :=
  { min_dist_xyz_between_keyframes := 1, min_icp_goodness := 1/2,
    max_KFs_local_graph := 5 }

/-- C10 concrete: `addKeyFrame` succeeds with id 4 but `addFactor` fails. -/
def c10env : OdomEnv :=
  { icp_rel_pose := { x := 2 }, icp_goodness := 9/10, kf_success := true,
    new_kf_id := some 4, factor_success := false, new_factor_id := some 1,
    dijkstra := [], has_worldmodel := false,
    neighbors := fun _ => (∅ : Finset Nat) }

/-- C10 concrete: a state with previous keyframe 3 and its stored cloud. -/
def c10st : MethodState :=
  { last_obs_tim := 1, last_points := some 7, last_kf := 3,
    local_pcs := [(3, 33)] }

/-- C10 concrete: the observation whose promotion is torn by the factor
failure. -/
def c10obs : CObservation :=
  { sensorLabel := "lidar", timestamp := 2, convertible := true, cloud := 8 }

/-! Helper lemmas shared by the claim theorems. -/

/-- The squared translation norm is nonnegative. -/
theorem normSq_nonneg (p : CPose3D) : 0 ≤ p.normSq := by
  unfold CPose3D.normSq
  have hx := mul_self_nonneg p.x
  have hy := mul_self_nonneg p.y
  have hz := mul_self_nonneg p.z
  linarith

/-- The identity pose has squared norm zero. -/
theorem identity_normSq : CPose3D.identity.normSq = 0 := by
  simp [CPose3D.identity, CPose3D.normSq]

/-- A pose with positive squared norm is not the identity. -/
theorem ne_identity_of_normSq_pos (p : CPose3D) (h : 0 < p.normSq) :
    p ≠ CPose3D.identity := by
  intro he
  rw [he, identity_normSq] at h
  exact lt_irrefl 0 h

/-- The embedded comparison `distGt` agrees with the real comparison
`t < norm(p)` of the source. -/
theorem distGt_iff_rnorm (p : CPose3D) (t : ℚ) :
    p.distGt t = true ↔ (t : ℝ) < p.rnorm := by
  unfold CPose3D.distGt CPose3D.rnorm
  rw [Bool.or_eq_true, decide_eq_true_eq, decide_eq_true_eq]
  rcases lt_or_le t 0 with h | h
  · constructor
    · intro _
      calc (t : ℝ) < 0 := by exact_mod_cast h
        _ ≤ Real.sqrt _ := Real.sqrt_nonneg _
    · intro _
      exact Or.inl h
  · have hcast : (0 : ℝ) ≤ (t : ℝ) := by exact_mod_cast h
    rw [Real.lt_sqrt hcast]
    constructor
    · rintro (hneg | hlt)
      · exact absurd hneg (not_lt.mpr h)
      · have : ((t * t : ℚ) : ℝ) < ((p.normSq : ℚ) : ℝ) := by exact_mod_cast hlt
        calc (t : ℝ) ^ 2 = ((t * t : ℚ) : ℝ) := by push_cast; ring
          _ < _ := this
    · intro hlt
      refine Or.inr ?_
      have : ((t * t : ℚ) : ℝ) < ((p.normSq : ℚ) : ℝ) := by
        calc ((t * t : ℚ) : ℝ) = (t : ℝ) ^ 2 := by push_cast; ring
          _ < _ := hlt
      exact_mod_cast this

/-- A positive squared norm from a passed `distGt` test with a nonnegative
threshold. -/
theorem distGt_pos (p : CPose3D) (t : ℚ) (h : p.distGt t = true)
    (ht : 0 ≤ t) : 0 < p.normSq := by
  unfold CPose3D.distGt at h
  rw [Bool.or_eq_true, decide_eq_true_eq, decide_eq_true_eq] at h
  rcases h with h | h
  · exact absurd h (not_lt.mpr ht)
  · calc (0 : ℚ) ≤ t * t := mul_nonneg ht ht
      _ < p.normSq := h

/-- IEEE division of a finite double by zero is never finite. -/
theorem divQ_zero_not_finite (a : ℚ) :
    (FloatVal.divQ a 0).isFinite = false := by
  unfold FloatVal.divQ
  split
  · next h => exact absurd rfl h
  · split
    · rfl
    · split <;> rfl

/-- Erasing a key erases it from the key sequence. -/
theorem mapKeys_mapErase {α : Type} (k : Nat) (m : List (Nat × α)) :
    mapKeys (mapErase k m) = (mapKeys m).erase k := by
  induction m with
  | nil => rfl
  | cons hd tl ih =>
    obtain ⟨k', v'⟩ := hd
    by_cases hk : k = k'
    · subst hk
      simp [mapErase, mapKeys, List.erase_cons]
    · simp [mapErase, hk, mapKeys, List.erase_cons, Ne.symm hk]
      simpa [mapKeys] using ih

/-- Assigning a key makes it retrievable. -/
theorem mapGet?_mapSet_self {α : Type} (k : Nat) (v : α)
    (m : List (Nat × α)) : mapGet? k (mapSet k v m) = some v := by
  induction m with
  | nil => simp [mapSet, mapGet?]
  | cons hd tl ih =>
    obtain ⟨k', v'⟩ := hd
    by_cases hlt : k < k'
    · simp [mapSet, hlt, mapGet?]
    · by_cases heq : k = k'
      · simp [mapSet, hlt, heq, mapGet?]
      · simp [mapSet, hlt, heq, mapGet?, ih]

/-- One eviction step removes the same id from the node and cloud key
sequences. -/
theorem removeNode_keys (adj : Nat → List Nat) (id : Nat) (g : GraphCut)
    (h : mapKeys g.nodes = mapKeys g.pcs) :
    mapKeys (removeNode adj id g).nodes = mapKeys (removeNode adj id g).pcs := by
  unfold removeNode
  simp only [mapKeys_mapErase, h]

/-- The eviction recursion preserves equality of the node and cloud key
sequences. -/
theorem evictAux_keys (maxKF : Nat) (adj : Nat → List Nat)
    (revKfd : List (ℚ × Nat)) (g : GraphCut)
    (h : mapKeys g.nodes = mapKeys g.pcs) :
    mapKeys (evictAux maxKF adj revKfd g).2.1.nodes =
      mapKeys (evictAux maxKF adj revKfd g).2.1.pcs := by
  induction revKfd generalizing g with
  | nil =>
    rw [evictAux]
    split
    · exact h
    · exact h
  | cons top rest ih =>
    rw [evictAux]
    split
    · exact h
    · exact ih (removeNode adj top.2 g) (removeNode_keys adj top.2 g h)

/-- `checkForNearbyKFs` never touches the twist. -/
theorem checkForNearbyKFs_twist (p : Params) (env : OdomEnv)
    (st : MethodState) :
    (checkForNearbyKFs p env st).1.last_iter_twist = st.last_iter_twist := rfl

/-- `checkForNearbyKFs` never touches the accumulator. -/
theorem checkForNearbyKFs_accum (p : Params) (env : OdomEnv)
    (st : MethodState) :
    (checkForNearbyKFs p env st).1.accum_since_last_kf =
      st.accum_since_last_kf := rfl

/-- `checkForNearbyKFs` never touches `last_kf`. -/
theorem checkForNearbyKFs_last_kf (p : Params) (env : OdomEnv)
    (st : MethodState) :
    (checkForNearbyKFs p env st).1.last_kf = st.last_kf := rfl

/-- `maybeNearby` never touches the twist. -/
theorem maybeNearby_twist (p : Params) (env : OdomEnv) (st : MethodState)
    (b : Bool) :
    (maybeNearby p env st b).1.last_iter_twist = st.last_iter_twist := by
  unfold maybeNearby
  split <;> rfl

/-- `maybeNearby` never touches the accumulator. -/
theorem maybeNearby_accum (p : Params) (env : OdomEnv) (st : MethodState)
    (b : Bool) :
    (maybeNearby p env st b).1.accum_since_last_kf =
      st.accum_since_last_kf := by
  unfold maybeNearby
  split <;> rfl

/-- `maybeNearby` never touches `last_kf`. -/
theorem maybeNearby_last_kf (p : Params) (env : OdomEnv) (st : MethodState)
    (b : Bool) :
    (maybeNearby p env st b).1.last_kf = st.last_kf := by
  unfold maybeNearby
  split <;> rfl

/-- `maybeNearby` completes with the promotion flag it was handed. -/
theorem maybeNearby_ok (p : Params) (env : OdomEnv) (st : MethodState)
    (b : Bool) :
    ∃ probe dv, (maybeNearby p env st b).2 = .ok b probe dv := by
  unfold maybeNearby
  split
  · exact ⟨_, _, rfl⟩
  · exact ⟨none, false, rfl⟩

/-- The promotion block never touches the twist. -/
theorem promoteKF_twist (p : Params) (env : OdomEnv) (o : CObservation)
    (st : MethodState) :
    (promoteKF p env o st).1.last_iter_twist = st.last_iter_twist := by
  unfold promoteKF
  dsimp only
  repeat' split
  all_goals first
    | rfl
    | rw [maybeNearby_twist]

/-- A successful promotion completes with the accumulator reset, `last_kf`
advanced to the fresh id, and the `ok true` outcome. -/
theorem promoteKF_success (p : Params) (env : OdomEnv) (o : CObservation)
    (st : MethodState) (kid fid : Nat)
    (hkf : env.kf_success = true) (hkid : env.new_kf_id = some kid)
    (hkv : kid ≠ INVALID_ID) (hfs : env.factor_success = true)
    (hfid : env.new_factor_id = some fid) (hfv : fid ≠ INVALID_FID) :
    ∃ probe dv, (promoteKF p env o st).2 = .ok true probe dv ∧
      (promoteKF p env o st).1.accum_since_last_kf = CPose3D.identity ∧
      (promoteKF p env o st).1.last_kf = kid := by
  unfold promoteKF
  dsimp only
  simp only [hkf, hkid, hfs, hfid, ne_eq, hkv, hfv, not_false_eq_true,
    if_true, if_pos rfl]
  split
  · obtain ⟨probe, dv, hok⟩ := maybeNearby_ok p env _ true
    exact ⟨probe, dv, hok, by rw [maybeNearby_accum]; rfl,
      by rw [maybeNearby_last_kf]⟩
  · obtain ⟨probe, dv, hok⟩ := maybeNearby_ok p env _ true
    exact ⟨probe, dv, hok, by rw [maybeNearby_accum]; rfl,
      by rw [maybeNearby_last_kf]⟩

/-- When `addKeyFrame` succeeds but `addFactor` reports failure and a
previous keyframe exists, the task aborts right after the point-cloud
insertion: the result keeps the freshly stored cloud and nothing else of the
promotion. -/
theorem promoteKF_factor_failure (p : Params) (env : OdomEnv)
    (o : CObservation) (st : MethodState) (kid : Nat)
    (hkf : env.kf_success = true) (hkid : env.new_kf_id = some kid)
    (hkv : kid ≠ INVALID_ID) (hlk : st.last_kf ≠ INVALID_ID)
    (hfs : env.factor_success = false) :
    promoteKF p env o st =
      ({ st with local_pcs := mapSet kid o.cloud st.local_pcs },
       .exceptionCaught) := by
  unfold promoteKF
  dsimp only
  simp only [hkf, hkid, hfs, ne_eq, hkv, hlk, not_false_eq_true, if_true,
    if_pos rfl, Bool.false_eq_true, if_false]

/-- Acceptance of an observation with a previous cloud and a successful
conversion reduces `doProcessNewObservation` to the registration stage on
the shifted state. -/
theorem doProcess_accepted (p : Params) (env : OdomEnv) (st : MethodState)
    (o : CObservation) (pc : Nat)
    (hacc : ¬(st.last_obs_tim ≠ 0 ∧
      timeDifference st.last_obs_tim o.timestamp < p.min_time_between_scans))
    (hlp : st.last_points = some pc) (hconv : o.convertible = true) :
    doProcessNewObservation p env st o =
      odomCore p env o (computeDt st.last_obs_tim o.timestamp)
        { st with last_obs := some o, last_obs_tim := o.timestamp,
                  last_points := some o.cloud } := by
  unfold doProcessNewObservation
  rw [if_neg hacc]
  simp only [hlp, hconv, Bool.true_eq_false, if_false]

/-- The registration stage under a well-behaved back-end: the outcome is
`ok b` with `b` true exactly on the promotion condition, and promotion
resets the accumulator and advances `last_kf`. -/
theorem odomCore_cases (p : Params) (env : OdomEnv) (o : CObservation)
    (dt : ℚ) (st : MethodState) (kid fid : Nat)
    (hkf : env.kf_success = true) (hkid : env.new_kf_id = some kid)
    (hkv : kid ≠ INVALID_ID) (hfs : env.factor_success = true)
    (hfid : env.new_factor_id = some fid) (hfv : fid ≠ INVALID_FID) :
    ∃ b probe dv, (odomCore p env o dt st).2 = .ok b probe dv ∧
      ((b = true) ↔ (p.min_icp_goodness < env.icp_goodness ∧
        (st.accum_since_last_kf.comp env.icp_rel_pose).distGt
          p.min_dist_xyz_between_keyframes = true)) ∧
      (b = true →
        (odomCore p env o dt st).1.accum_since_last_kf = CPose3D.identity ∧
        (odomCore p env o dt st).1.last_kf = kid) := by
  unfold odomCore
  dsimp only
  split
  · next hcond =>
    obtain ⟨probe, dv, hok, hacc, hlast⟩ :=
      promoteKF_success p env o _ kid fid hkf hkid hkv hfs hfid hfv
    exact ⟨true, probe, dv, hok, by simp [hcond], fun _ => ⟨hacc, hlast⟩⟩
  · next hcond =>
    obtain ⟨probe, dv, hok⟩ := maybeNearby_ok p env _ false
    refine ⟨false, probe, dv, hok, by simp [hcond], fun h => absurd h (by simp)⟩

/-- The registration stage stores the twist computed from the registration
and the elapsed time, whatever happens afterwards. -/
theorem odomCore_twist (p : Params) (env : OdomEnv) (o : CObservation)
    (dt : ℚ) (st : MethodState) :
    (odomCore p env o dt st).1.last_iter_twist =
      twistFromRel env.icp_rel_pose dt := by
  unfold odomCore
  dsimp only
  split
  · rw [promoteKF_twist]
  · rw [maybeNearby_twist]

/-- A pair already recorded in `checked_KF_pairs` forces the
`edge_already_exists` flag. -/
theorem edgeFlag_true_of_mem (env : OdomEnv) (root kf_id : Nat)
    (checked : Finset (Nat × Nat)) (h : normPair kf_id root ∈ checked) :
    edgeFlag env root kf_id checked = true := by
  unfold edgeFlag
  simp [h]

/-- A dispatched probe task names the root, carries a pair that was not yet
recorded, and records exactly that pair. -/
theorem maybeDispatch_some (env : OdomEnv) (root : Nat)
    (kfd : List (ℚ × Nat)) (nodes : List (Nat × CPose3D))
    (pcs : List (Nat × Nat)) (checked : Finset (Nat × Nat))
    (t : DataForCheckEdges)
    (h : (maybeDispatch env root kfd nodes pcs checked).1 = some t) :
    t.from_id = root ∧
    normPair t.to_id t.from_id ∉ checked ∧
    (maybeDispatch env root kfd nodes pcs checked).2 =
      insert (normPair t.to_id t.from_id) checked := by
  cases kfd with
  | nil => simp [maybeDispatch] at h
  | cons hd tl =>
    unfold maybeDispatch at h ⊢
    dsimp only at h ⊢
    by_cases hflag : edgeFlag env root (selectCandidate (hd :: tl)) checked = true
    · rw [hflag] at h
      simp at h
    · rw [Bool.not_eq_true] at hflag
      rw [hflag] at h ⊢
      simp only [Bool.not_false, if_true] at h ⊢
      rw [Option.some.injEq] at h
      subst h
      refine ⟨rfl, ?_, rfl⟩
      intro hmem
      have hmem' : normPair (selectCandidate (hd :: tl)) root ∈ checked := hmem
      have htrue := edgeFlag_true_of_mem env root (selectCandidate (hd :: tl))
        checked hmem'
      rw [hflag] at htrue
      exact Bool.noConfusion htrue

/-- Skipping dispatch leaves `checked_KF_pairs` untouched. -/
theorem maybeDispatch_none (env : OdomEnv) (root : Nat)
    (kfd : List (ℚ × Nat)) (nodes : List (Nat × CPose3D))
    (pcs : List (Nat × Nat)) (checked : Finset (Nat × Nat))
    (h : (maybeDispatch env root kfd nodes pcs checked).1 = none) :
    (maybeDispatch env root kfd nodes pcs checked).2 = checked := by
  cases kfd with
  | nil => rfl
  | cons hd tl =>
    unfold maybeDispatch at h ⊢
    dsimp only at h ⊢
    by_cases hflag : edgeFlag env root (selectCandidate (hd :: tl)) checked = true
    · rw [hflag]
      simp
    · rw [Bool.not_eq_true] at hflag
      rw [hflag] at h
      simp at h


/-- The dispatch discipline of `checkForNearbyKFs`: the normalized pair of a
dispatched task was not in `checked_KF_pairs` and is inserted exactly then;
no dispatch leaves the set unchanged. -/
theorem checkForNearbyKFs_probe (p : Params) (env : OdomEnv)
    (st : MethodState) :
    (∀ t, (checkForNearbyKFs p env st).2.1 = some t →
      normPair t.to_id t.from_id ∉ st.checked_KF_pairs ∧
      (checkForNearbyKFs p env st).1.checked_KF_pairs =
        insert (normPair t.to_id t.from_id) st.checked_KF_pairs) ∧
    ((checkForNearbyKFs p env st).2.1 = none →
      (checkForNearbyKFs p env st).1.checked_KF_pairs =
        st.checked_KF_pairs) := by
  constructor
  · intro t ht
    have hs := maybeDispatch_some env st.last_kf _ _ _ st.checked_KF_pairs t ht
    exact ⟨hs.2.1, hs.2.2⟩
  · intro ht
    exact maybeDispatch_none env st.last_kf _ _ _ st.checked_KF_pairs ht

/-- A pair recorded in `checked_KF_pairs` is never dispatched later in the
run. -/
theorem notMem_runChecks (calls : List CheckCall)
    (checked : Finset (Nat × Nat)) (pair : Nat × Nat) (h : pair ∈ checked) :
    pair ∉ runChecks calls checked := by
  induction calls generalizing checked with
  | nil => simp [runChecks]
  | cons c rest ih =>
    rw [runChecks]
    cases ht : (checkForNearbyKFs c.p c.env (callState c checked)).2.1 with
    | none =>
      rw [(checkForNearbyKFs_probe c.p c.env (callState c checked)).2 ht]
      exact ih checked h
    | some t =>
      have hspec :=
        (checkForNearbyKFs_probe c.p c.env (callState c checked)).1 t ht
      intro hmem
      rcases List.mem_cons.mp hmem with he | hrest
      · exact hspec.1 (he ▸ h)
      · refine ih _ ?_ hrest
        rw [hspec.2]
        exact Finset.mem_insert_of_mem h

/-- Every unordered pair is dispatched at most once per run. -/
theorem count_runChecks (calls : List CheckCall)
    (checked : Finset (Nat × Nat)) (pair : Nat × Nat) :
    (runChecks calls checked).count pair ≤ 1 := by
  induction calls generalizing checked with
  | nil => simp [runChecks]
  | cons c rest ih =>
    rw [runChecks]
    cases ht : (checkForNearbyKFs c.p c.env (callState c checked)).2.1 with
    | none => exact ih _
    | some t =>
      have hspec :=
        (checkForNearbyKFs_probe c.p c.env (callState c checked)).1 t ht
      by_cases hp : pair = normPair t.to_id t.from_id
      · rw [hp, List.count_cons_self]
        have hnot : normPair t.to_id t.from_id ∉ runChecks rest
            ((checkForNearbyKFs c.p c.env
              (callState c checked)).1.checked_KF_pairs) := by
          apply notMem_runChecks
          rw [hspec.2]
          exact Finset.mem_insert_self _ _
        rw [List.count_eq_zero_of_not_mem hnot]
      · rw [List.count_cons_of_ne hp]
        exact ih _


/-- The embedded acceptance test `ratioLtFifth` agrees with the real
comparison `correction / (guess_norm + 0.01) < 0.20` of the source, over the
squared correction `c` and squared guess norm `i`. -/
theorem ratioLtFifth_iff (c i : ℚ) (hi : 0 ≤ i) :
    ratioLtFifth c i = true ↔
      Real.sqrt ((c : ℚ) : ℝ) / (Real.sqrt ((i : ℚ) : ℝ) + 1 / 100)
        < 1 / 5 := by
  have hireal : (0 : ℝ) ≤ ((i : ℚ) : ℝ) := by exact_mod_cast hi
  set s := Real.sqrt ((i : ℚ) : ℝ) with hsdef
  have hs : 0 ≤ s := Real.sqrt_nonneg _
  have hs2 : s ^ 2 = ((i : ℚ) : ℝ) := Real.sq_sqrt hireal
  have hD : (0 : ℝ) < s + 1 / 100 := by linarith
  have hX : (0 : ℝ) < 1 / 5 * (s + 1 / 100) := by linarith
  rw [div_lt_iff₀ hD, Real.sqrt_lt' hX]
  have hexp : (1 / 5 * (s + 1 / 100)) ^ 2
      = ((i : ℚ) : ℝ) / 25 + s / 1250 + 1 / 250000 := by
    have h1 : (1 / 5 * (s + 1 / 100)) ^ 2
        = s ^ 2 / 25 + s / 1250 + 1 / 250000 := by ring
    rw [h1, hs2]
  rw [hexp]
  unfold ratioLtFifth
  rw [Bool.or_eq_true, decide_eq_true_eq, decide_eq_true_eq]
  constructor
  · rintro (h | h)
    · have h' : ((c - i / 25 - 1 / 250000 : ℚ) : ℝ) < 0 := by exact_mod_cast h
      push_cast at h'
      nlinarith
    · have h' : (((c - i / 25 - 1 / 250000) * (c - i / 25 - 1 / 250000) : ℚ) : ℝ)
          < ((i : ℚ) : ℝ) / 1562500 := by exact_mod_cast h
      push_cast at h'
      nlinarith [hs, sq_nonneg (((c : ℚ) : ℝ) - ((i : ℚ) : ℝ) / 25
        - 1 / 250000 + s / 1250)]
  · intro h
    by_cases hL : (c - i / 25 - 1 / 250000 : ℚ) < 0
    · exact Or.inl hL
    · refine Or.inr ?_
      push_neg at hL
      have hLr : (0 : ℝ) ≤ ((c : ℚ) : ℝ) - ((i : ℚ) : ℝ) / 25 - 1 / 250000 := by
        have : ((0 : ℚ) : ℝ) ≤ ((c - i / 25 - 1 / 250000 : ℚ) : ℝ) := by
          exact_mod_cast hL
        push_cast at this
        linarith
      have hkey : (((c - i / 25 - 1 / 250000) * (c - i / 25 - 1 / 250000) : ℚ) : ℝ)
          < ((i : ℚ) : ℝ) / 1562500 := by
        push_cast
        nlinarith [hs, hLr, h]
      have : ((c - i / 25 - 1 / 250000) * (c - i / 25 - 1 / 250000) : ℚ)
          < i / 1562500 := by exact_mod_cast hkey
      exact this



/-- The nearby-KF tail never reports a time-gap drop. -/
theorem maybeNearby_ne_dropped (p : Params) (env : OdomEnv)
    (st : MethodState) (b : Bool) :
    (maybeNearby p env st b).2 ≠ .droppedTooSoon := by
  obtain ⟨probe, dv, hok⟩ := maybeNearby_ok p env st b
  rw [hok]
  exact fun h => TaskOutcome.noConfusion h

/-- The promotion block never reports a time-gap drop. -/
theorem promoteKF_ne_dropped (p : Params) (env : OdomEnv) (o : CObservation)
    (st : MethodState) :
    (promoteKF p env o st).2 ≠ .droppedTooSoon := by
  unfold promoteKF
  dsimp only
  repeat' split
  all_goals first
    | exact maybeNearby_ne_dropped _ _ _ _
    | exact fun h => TaskOutcome.noConfusion h

/-- The registration stage never reports a time-gap drop. -/
theorem odomCore_ne_dropped (p : Params) (env : OdomEnv) (o : CObservation)
    (dt : ℚ) (st : MethodState) :
    (odomCore p env o dt st).2 ≠ .droppedTooSoon := by
  unfold odomCore
  dsimp only
  split
  · exact promoteKF_ne_dropped _ _ _ _
  · exact maybeNearby_ne_dropped _ _ _ _

attribute [local semireducible] Rat.add Rat.sub Rat.mul Rat.inv

/-- C1, at the failing input: the claim says a pair whose adjacency the world
model reports is treated as already handled, with no probe task submitted.
The source instead assigns `edge_already_exists = false` in that branch (its
own log message says "Discarding"), so with root 10, non-adjacent candidate 5,
an empty `checked_KF_pairs` and the world model reporting 10 among the
neighbors of 5, a probe task for (5, 10) is dispatched anyway and the pair is
recorded. -/
theorem C1_worldmodel_neighbor_dispatches_anyway :
    10 ∈ c1env.neighbors 5 ∧
    ¬ (|(5 : Int) - (10 : Int)| < 2) ∧
    normPair 5 10 ∉ c1st.checked_KF_pairs ∧
    ((checkForNearbyKFs c1p c1env c1st).2.1.map DataForCheckEdges.to_id
      = some 5) ∧
    ((checkForNearbyKFs c1p c1env c1st).2.1.map DataForCheckEdges.from_id
      = some 10) ∧
    (checkForNearbyKFs c1p c1env c1st).1.checked_KF_pairs = {(5, 10)} := by
  decide

/-- C2, counterexample: an accepted observation whose conversion fails is
reported as a conversion failure, yet `last_obs_tim` has advanced from 1 to 2
(and `last_points`/`last_obs` changed too) — the claim that `last_obs`,
`last_obs_tim` and `last_points` keep their values is false on the code,
which shifts the state before checking `have_points`. -/
theorem C2_counterexample_state_advances :
    (doProcessNewObservation c2p c2env c2st c2obs).2
        = TaskOutcome.conversionFailed ∧
    c2st.last_obs_tim = 1 ∧
    (doProcessNewObservation c2p c2env c2st c2obs).1.last_obs_tim = 2 ∧
    (doProcessNewObservation c2p c2env c2st c2obs).1.last_obs_tim
        ≠ c2st.last_obs_tim ∧
    (doProcessNewObservation c2p c2env c2st c2obs).1.last_points
        ≠ c2st.last_points ∧
    (doProcessNewObservation c2p c2env c2st c2obs).1.last_obs
        ≠ c2st.last_obs := by
  decide

/-- C2, as amended: for every accepted observation whose conversion fails
(with a previous cloud present), the task returns the conversion-failure
outcome without running registration — twist, accumulator, keyframes, graph,
clouds and checked pairs are untouched — but `last_obs`, `last_obs_tim` and
`last_points` are advanced to the new observation, its timestamp and the new
(empty) cloud. -/
theorem C2_conversion_failure_frame (p : Params) (env : OdomEnv)
    (st : MethodState) (o : CObservation) (pc : Nat)
    (hacc : ¬(st.last_obs_tim ≠ 0 ∧
      timeDifference st.last_obs_tim o.timestamp < p.min_time_between_scans))
    (hlp : st.last_points = some pc) (hconv : o.convertible = false) :
    doProcessNewObservation p env st o =
      ({ st with last_obs := some o, last_obs_tim := o.timestamp,
                 last_points := some o.cloud }, .conversionFailed) := by
  unfold doProcessNewObservation
  rw [if_neg hacc]
  simp only [hlp, hconv, if_pos rfl, if_true]

/-- C2 witness: the amended statement at the concrete conversion-failure
run. -/
theorem C2_conversion_failure_frame_witness :
    doProcessNewObservation c2p c2env c2st c2obs =
      ({ c2st with last_obs := some c2obs, last_obs_tim := c2obs.timestamp,
                   last_points := some c2obs.cloud },
       TaskOutcome.conversionFailed) :=
  C2_conversion_failure_frame c2p c2env c2st c2obs 7 (by decide) (by decide)
    (by decide)

/-- C4, counterexample: immediately after the first keyframe promotion the
stored clouds have key set [1] while the local graph node map is empty — the
claimed key-set equality fails right there, because the node map is only
populated by `checkForNearbyKFs`, which does not run until a second cloud
exists. -/
theorem C4_counterexample_first_promotion :
    (doProcessNewObservation c4p c4env c4st c4obs).2
        = TaskOutcome.ok true none false ∧
    mapKeys (doProcessNewObservation c4p c4env c4st c4obs).1.local_pcs
        = [1] ∧
    (doProcessNewObservation c4p c4env c4st c4obs).1.local_pose_graph.nodes
        = [] ∧
    mapKeys
        (doProcessNewObservation c4p c4env c4st c4obs).1.local_pose_graph.nodes
      ≠ mapKeys (doProcessNewObservation c4p c4env c4st c4obs).1.local_pcs := by
  decide

/-- C4, as amended: the eviction loop of `checkForNearbyKFs` removes a node
and its point cloud together, so whenever the node and cloud key sets agree
when the loop starts they agree when it completes; the equality does not,
however, hold after every public operation — see the first-promotion
counterexample. -/
theorem C4_eviction_preserves_key_sets (maxKF : Nat) (adj : Nat → List Nat)
    (kfd : List (ℚ × Nat)) (g : GraphCut)
    (h : mapKeys g.nodes = mapKeys g.pcs) :
    mapKeys (evictLoop maxKF adj kfd g).2.1.nodes =
      mapKeys (evictLoop maxKF adj kfd g).2.1.pcs := by
  unfold evictLoop
  exact evictAux_keys maxKF adj kfd.reverse g h

/-- C4 witness: key-set preservation on a concrete three-node eviction. -/
theorem C4_eviction_preserves_key_sets_witness :
    mapKeys (evictLoop 1 (adjOf c4cut.edges) (buildKFDistances c4cut.nodes)
        c4cut).2.1.nodes =
      mapKeys (evictLoop 1 (adjOf c4cut.edges) (buildKFDistances c4cut.nodes)
        c4cut).2.1.pcs :=
  C4_eviction_preserves_key_sets 1 _ _ c4cut (by decide)

/-- C5, at the failing input: `KF_distances` is keyed by the distance, so
equal norms collapse — four nodes with norms 0, 5, 5, 5 produce only two
entries. With `max_KFs_local_graph = 1` the loop first removes node 4, then
node 1 (the root, norm 0, not the largest), and then falls off the empty
distance map with two nodes still stored (the C++ loop dereferences
`rbegin()` of an empty map there): the claimed termination with at most
`max` nodes and largest-norm removal both fail. The three-node run shows the
wrong-removal outcome concretely: node 1 with norm 0 is evicted while node 2
with norm 5 survives. -/
theorem C5_eviction_collapses_equal_norms :
    buildKFDistances c5nodes = [((0 : ℚ), 1), ((25 : ℚ), 4)] ∧
    (evictLoop 1 (adjOf []) (buildKFDistances c5nodes) c5g).2.2 = true ∧
    mapKeys (evictLoop 1 (adjOf []) (buildKFDistances c5nodes) c5g).2.1.nodes
        = [2, 3] ∧
    ¬ ((evictLoop 1 (adjOf []) (buildKFDistances c5nodes) c5g).2.1.nodes.length
        ≤ 1) ∧
    mapKeys (evictLoop 1 (adjOf []) (buildKFDistances c5nodes3) c5g3).2.1.nodes
        = [2] ∧
    (mapGet? 1 c5nodes3).map CPose3D.normSq = some 0 ∧
    (mapGet? 2 c5nodes3).map CPose3D.normSq = some 25 := by
  decide


/-- C3: for every registered scan pair under a well-behaved back-end, a new
keyframe is minted iff `goodness > min_icp_goodness` and the Euclidean norm
of the updated accumulator exceeds `min_dist_xyz_between_keyframes`; and
immediately after a successful promotion the accumulator is the identity
pose and `last_kf` is the freshly allocated keyframe id. -/
theorem C3_promotion_rule (p : Params) (env : OdomEnv) (st : MethodState)
    (o : CObservation) (pc kid fid : Nat)
    (hacc : ¬(st.last_obs_tim ≠ 0 ∧
      timeDifference st.last_obs_tim o.timestamp < p.min_time_between_scans))
    (hlp : st.last_points = some pc) (hconv : o.convertible = true)
    (hkf : env.kf_success = true) (hkid : env.new_kf_id = some kid)
    (hkv : kid ≠ INVALID_ID) (hfs : env.factor_success = true)
    (hfid : env.new_factor_id = some fid) (hfv : fid ≠ INVALID_FID) :
    ∃ b probe dv,
      (doProcessNewObservation p env st o).2 = .ok b probe dv ∧
      (b = true ↔ (p.min_icp_goodness < env.icp_goodness ∧
        ((p.min_dist_xyz_between_keyframes : ℚ) : ℝ) <
          (st.accum_since_last_kf.comp env.icp_rel_pose).rnorm)) ∧
      (b = true →
        (doProcessNewObservation p env st o).1.accum_since_last_kf
            = CPose3D.identity ∧
        (doProcessNewObservation p env st o).1.last_kf = kid) := by
  rw [doProcess_accepted p env st o pc hacc hlp hconv]
  obtain ⟨b, probe, dv, hok, hiff, himp⟩ :=
    odomCore_cases p env o (computeDt st.last_obs_tim o.timestamp)
      { st with last_obs := some o, last_obs_tim := o.timestamp,
                last_points := some o.cloud } kid fid hkf hkid hkv hfs hfid hfv
  refine ⟨b, probe, dv, hok, ?_, himp⟩
  rw [hiff]
  constructor
  · rintro ⟨hg, hd⟩
    exact ⟨hg, (distGt_iff_rnorm _ _).mp hd⟩
  · rintro ⟨hg, hd⟩
    exact ⟨hg, (distGt_iff_rnorm _ _).mpr hd⟩

/-- C3 witness: the promotion rule at a concrete promoting run. -/
theorem C3_promotion_rule_witness :
    ∃ b probe dv,
      (doProcessNewObservation c3p c3env c3st c3obs).2
          = TaskOutcome.ok b probe dv ∧
      (b = true ↔ (c3p.min_icp_goodness < c3env.icp_goodness ∧
        ((c3p.min_dist_xyz_between_keyframes : ℚ) : ℝ) <
          (c3st.accum_since_last_kf.comp c3env.icp_rel_pose).rnorm)) ∧
      (b = true →
        (doProcessNewObservation c3p c3env c3st c3obs).1.accum_since_last_kf
            = CPose3D.identity ∧
        (doProcessNewObservation c3p c3env c3st c3obs).1.last_kf = 1) :=
  C3_promotion_rule c3p c3env c3st c3obs 7 1 1 (by decide) (by decide)
    (by decide) (by decide) (by decide) (by decide) (by decide) (by decide)
    (by decide)

/-- C6: for every probe task with non-null clouds and a well-behaved
back-end, a factor is submitted and the edge appended iff the goodness
clears `min_icp_goodness` and
`‖rel_pose − init_guess‖ / (‖init_guess‖ + 0.01) < 0.20`; otherwise the
state is untouched. -/
theorem C6_probe_gate (p : Params) (env : ProbeEnv) (d : DataForCheckEdges)
    (st : MethodState) (a b fid : Nat)
    (hfr : d.from_pc = some a) (hto : d.to_pc = some b)
    (hfs : env.factor_success = true) (hfid : env.new_factor_id = some fid)
    (hfv : fid ≠ INVALID_FID) :
    (((doCheckForNonAdjacentKFs p env d st).2 = ProbeOutcome.factorAdded ∧
      (doCheckForNonAdjacentKFs p env d st).1.local_pose_graph.edges =
        st.local_pose_graph.edges ++ [(d.from_id, d.to_id)])
     ↔ (p.min_icp_goodness < env.icp_goodness ∧
        (env.icp_rel_pose.inverseCompose d.init_guess_to_wrt_from).rnorm /
          (d.init_guess_to_wrt_from.rnorm + 1 / 100) < 1 / 5)) ∧
    ((doCheckForNonAdjacentKFs p env d st).2 ≠ ProbeOutcome.factorAdded →
      (doCheckForNonAdjacentKFs p env d st).1 = st) := by
  unfold doCheckForNonAdjacentKFs
  rw [hfr, hto]
  dsimp only
  by_cases hcond : p.min_icp_goodness < env.icp_goodness ∧
      ratioLtFifth ((env.icp_rel_pose.inverseCompose
          d.init_guess_to_wrt_from).normSq)
        (d.init_guess_to_wrt_from).normSq = true
  · rw [if_pos hcond]
    simp only [hfs, hfid, ne_eq, hfv, not_false_eq_true, if_true, if_pos rfl]
    constructor
    · constructor
      · intro _
        exact ⟨hcond.1,
          (ratioLtFifth_iff _ _ (normSq_nonneg _)).mp hcond.2⟩
      · intro _
        trivial
    · intro hne
      exact absurd trivial hne
  · rw [if_neg hcond]
    constructor
    · constructor
      · rintro ⟨h2, _⟩
        exact absurd h2 (by simp)
      · rintro ⟨hg, hr⟩
        exact absurd
          ⟨hg, (ratioLtFifth_iff _ _ (normSq_nonneg _)).mpr hr⟩ hcond
    · intro _
      rfl

/-- C6 witness: a probe with goodness 0.9 but correction 0.3535 m against a
one-meter guess (ratio exactly 0.35) emits no factor and appends no edge. -/
theorem C6_probe_gate_witness :
    ¬ ((doCheckForNonAdjacentKFs c6p c6env c6d ({} : MethodState)).2
          = ProbeOutcome.factorAdded ∧
       (doCheckForNonAdjacentKFs c6p c6env c6d
           ({} : MethodState)).1.local_pose_graph.edges =
         ({} : MethodState).local_pose_graph.edges
           ++ [(c6d.from_id, c6d.to_id)]) := by
  have hgate := C6_probe_gate c6p c6env c6d ({} : MethodState) 1 2 1
    (by decide) (by decide) (by decide) (by decide) (by decide)
  intro hL
  have hR := hgate.1.mp hL
  have hcorr : (c6env.icp_rel_pose.inverseCompose
      c6d.init_guess_to_wrt_from).rnorm = 707 / 2000 := by
    unfold CPose3D.rnorm
    have hv : ((((c6env.icp_rel_pose.inverseCompose
        c6d.init_guess_to_wrt_from).normSq : ℚ)) : ℝ)
        = ((707 : ℝ) / 2000) ^ 2 := by
      norm_num [c6env, c6d, CPose3D.inverseCompose, CPose3D.normSq]
    rw [hv, Real.sqrt_sq (by norm_num)]
  have hinit : (c6d.init_guess_to_wrt_from).rnorm = 1 := by
    unfold CPose3D.rnorm
    have hv : ((((c6d.init_guess_to_wrt_from).normSq : ℚ)) : ℝ) = 1 := by
      norm_num [c6d, CPose3D.normSq]
    rw [hv, Real.sqrt_one]
  rw [hcorr, hinit] at hR
  have : ¬ ((707 : ℝ) / 2000 / (1 + 1 / 100) < 1 / 5) := by norm_num
  exact this hR.2

/-- C7: over any run, every unordered keyframe pair is dispatched to the
probe pool at most once; a pair already in `checked_KF_pairs` is never
dispatched; and one invocation inserts the normalized pair exactly when it
dispatches a task, leaving the set unchanged otherwise. -/
theorem C7_probe_dedup (calls : List CheckCall) (checked : Finset (Nat × Nat))
    (pair : Nat × Nat) (p : Params) (env : OdomEnv) (st : MethodState) :
    (runChecks calls checked).count pair ≤ 1 ∧
    (pair ∈ checked → pair ∉ runChecks calls checked) ∧
    (∀ t, (checkForNearbyKFs p env st).2.1 = some t →
      normPair t.to_id t.from_id ∉ st.checked_KF_pairs ∧
      (checkForNearbyKFs p env st).1.checked_KF_pairs =
        insert (normPair t.to_id t.from_id) st.checked_KF_pairs) ∧
    ((checkForNearbyKFs p env st).2.1 = none →
      (checkForNearbyKFs p env st).1.checked_KF_pairs =
        st.checked_KF_pairs) :=
  ⟨count_runChecks calls checked pair,
   fun h => notMem_runChecks calls checked pair h,
   (checkForNearbyKFs_probe p env st).1,
   (checkForNearbyKFs_probe p env st).2⟩

/-- C7 witness: two identical invocations that select the pair (5, 10)
dispatch exactly once, and the dispatching invocation records the pair. -/
theorem C7_probe_dedup_witness :
    (runChecks [c7call, c7call] ∅).count (normPair 5 10) ≤ 1 ∧
    runChecks [c7call, c7call] ∅ = [normPair 5 10] ∧
    normPair c7task.to_id c7task.from_id
        ∉ (callState c7call ∅).checked_KF_pairs ∧
    (checkForNearbyKFs c7call.p c7call.env
        (callState c7call ∅)).1.checked_KF_pairs =
      insert (normPair c7task.to_id c7task.from_id)
        (callState c7call ∅).checked_KF_pairs := by
  have h := C7_probe_dedup [c7call, c7call] ∅ (normPair 5 10) c7call.p
    c7call.env (callState c7call ∅)
  have hstep := h.2.2.1 c7task (by decide)
  exact ⟨h.1, by decide, hstep.1, hstep.2⟩

/-- C8: an observation carrying the configured label is dropped without
enqueueing when the odometry pool reports more than one pending task, the
front-end state is untouched, and the drop warning obeys the 5-second
throttle: with a previous warning at time `t` it fires iff `now - t ≥ 5`,
recording the new emission time. -/
theorem C8_load_shed (raw : String) (pending : Nat) (now : ℚ)
    (st : MethodState) (lastWarn : Option ℚ) (o : CObservation)
    (hl : o.sensorLabel = raw) (hp : 1 < pending) :
    (onNewObservation raw pending now st lastWarn o).enqueued = false ∧
    (onNewObservation raw pending now st lastWarn o).st = st ∧
    (∀ t, lastWarn = some t →
      ((onNewObservation raw pending now st lastWarn o).warned = true ↔
        5 ≤ now - t)) ∧
    (lastWarn = none →
      (onNewObservation raw pending now st lastWarn o).warned = true) ∧
    ((onNewObservation raw pending now st lastWarn o).warned = true →
      (onNewObservation raw pending now st lastWarn o).lastWarn
        = some now) := by
  unfold onNewObservation
  rw [if_neg (fun hne => hne hl), if_pos hp]
  cases lastWarn with
  | none =>
    refine ⟨rfl, rfl, ?_, ?_, ?_⟩
    · intro t ht
      exact absurd ht (by simp)
    · intro _
      rfl
    · intro _
      rfl
  | some t0 =>
    simp only [throttleWarn]
    by_cases hgap : (5 : ℚ) ≤ now - t0
    · rw [if_pos hgap]
      refine ⟨by trivial, by trivial, ?_, ?_, ?_⟩
      · intro t ht
        obtain rfl : t0 = t := by injection ht
        constructor
        · intro _
          exact hgap
        · intro _
          trivial
      · intro h
        exact absurd h (by simp)
      · intro _
        trivial
    · rw [if_neg hgap]
      refine ⟨by trivial, by trivial, ?_, ?_, ?_⟩
      · intro t ht
        obtain rfl : t0 = t := by injection ht
        constructor
        · intro hfalse
          exact absurd hfalse (by simp)
        · intro hge
          exact absurd hge hgap
      · intro h
        exact absurd h (by simp)
      · intro h
        exact absurd h (by simp)

/-- C8 witness: at pending 2 the observation is dropped with the state
unchanged, and 3 seconds after the last warning the throttle suppresses the
new one. -/
theorem C8_load_shed_witness :
    (onNewObservation "lidar" 2 3 {} (some 0) c8obs).enqueued = false ∧
    (onNewObservation "lidar" 2 3 {} (some 0) c8obs).st = {} ∧
    ((onNewObservation "lidar" 2 3 {} (some 0) c8obs).warned = true ↔
      (5 : ℚ) ≤ 3 - 0) := by
  have h := C8_load_shed "lidar" 2 3 {} (some 0) c8obs rfl (by decide)
  exact ⟨h.1, h.2.1, h.2.2.1 0 rfl⟩

/-- C9: with `min_time_between_scans = 0` and two accepted consecutive
observations carrying the same timestamp, `dt = 0`, the initial guess is the
identity (`vx·0 = 0` for a finite twist), and the stored twist components
become non-finite — the division by `dt` has no guard. -/
theorem C9_dt_zero_twist_nonfinite (p : Params) (env : OdomEnv)
    (st : MethodState) (o : CObservation) (pc : Nat) (qx qy qz : ℚ)
    (hmt : p.min_time_between_scans = 0)
    (ht : o.timestamp = st.last_obs_tim) (htz : st.last_obs_tim ≠ 0)
    (hconv : o.convertible = true) (hlp : st.last_points = some pc)
    (hvx : st.last_iter_twist.vx = .finite qx)
    (hvy : st.last_iter_twist.vy = .finite qy)
    (hvz : st.last_iter_twist.vz = .finite qz) :
    computeDt st.last_obs_tim o.timestamp = 0 ∧
    initGuessFromTwist st.last_iter_twist
        (computeDt st.last_obs_tim o.timestamp) =
      (.finite 0, .finite 0, .finite 0) ∧
    (doProcessNewObservation p env st o).2 ≠ .droppedTooSoon ∧
    (doProcessNewObservation p env st o).1.last_iter_twist.vx.isFinite
        = false ∧
    (doProcessNewObservation p env st o).1.last_iter_twist.vy.isFinite
        = false ∧
    (doProcessNewObservation p env st o).1.last_iter_twist.vz.isFinite
        = false := by
  have hacc : ¬(st.last_obs_tim ≠ 0 ∧
      timeDifference st.last_obs_tim o.timestamp
        < p.min_time_between_scans) := by
    rintro ⟨_, hlt⟩
    rw [ht, hmt] at hlt
    unfold timeDifference at hlt
    simp at hlt
  have hdt : computeDt st.last_obs_tim o.timestamp = 0 := by
    unfold computeDt timeDifference
    rw [if_pos htz, ht]
    ring
  refine ⟨hdt, ?_, ?_, ?_, ?_, ?_⟩
  · rw [hdt]
    unfold initGuessFromTwist
    rw [hvx, hvy, hvz]
    simp [FloatVal.mulQ]
  · rw [doProcess_accepted p env st o pc hacc hlp hconv]
    exact odomCore_ne_dropped _ _ _ _ _
  · rw [doProcess_accepted p env st o pc hacc hlp hconv, odomCore_twist, hdt]
    exact divQ_zero_not_finite _
  · rw [doProcess_accepted p env st o pc hacc hlp hconv, odomCore_twist, hdt]
    exact divQ_zero_not_finite _
  · rw [doProcess_accepted p env st o pc hacc hlp hconv, odomCore_twist, hdt]
    exact divQ_zero_not_finite _

/-- C9 witness: the zero-dt run at a concrete repeated timestamp. -/
theorem C9_dt_zero_twist_nonfinite_witness :
    computeDt c9st.last_obs_tim c9obs.timestamp = 0 ∧
    initGuessFromTwist c9st.last_iter_twist
        (computeDt c9st.last_obs_tim c9obs.timestamp) =
      (.finite 0, .finite 0, .finite 0) ∧
    (doProcessNewObservation c9p c9env c9st c9obs).2
        ≠ TaskOutcome.droppedTooSoon ∧
    (doProcessNewObservation c9p c9env c9st c9obs).1.last_iter_twist.vx.isFinite
        = false ∧
    (doProcessNewObservation c9p c9env c9st c9obs).1.last_iter_twist.vy.isFinite
        = false ∧
    (doProcessNewObservation c9p c9env c9st c9obs).1.last_iter_twist.vz.isFinite
        = false :=
  C9_dt_zero_twist_nonfinite c9p c9env c9st c9obs 7 1 2 3 (by decide)
    (by decide) (by decide) (by decide) (by decide) (by decide) (by decide)
    (by decide)

/-- C10: when `addKeyFrame` succeeds but `addFactor` reports failure (with a
previous keyframe present), the task aborts with the promotion half applied:
the new point cloud is already stored in `local_pcs` under the fresh id,
while the accumulator keeps the un-reset composed displacement (not the
identity) and `last_kf` keeps its previous value. -/
theorem C10_half_applied_promotion (p : Params) (env : OdomEnv)
    (st : MethodState) (o : CObservation) (pc kid : Nat)
    (hacc : ¬(st.last_obs_tim ≠ 0 ∧
      timeDifference st.last_obs_tim o.timestamp < p.min_time_between_scans))
    (hlp : st.last_points = some pc) (hconv : o.convertible = true)
    (hg : p.min_icp_goodness < env.icp_goodness)
    (hd : (st.accum_since_last_kf.comp env.icp_rel_pose).distGt
      p.min_dist_xyz_between_keyframes = true)
    (hkf : env.kf_success = true) (hkid : env.new_kf_id = some kid)
    (hkv : kid ≠ INVALID_ID) (hlk : st.last_kf ≠ INVALID_ID)
    (hfs : env.factor_success = false)
    (hmd : 0 ≤ p.min_dist_xyz_between_keyframes) :
    (doProcessNewObservation p env st o).2 = .exceptionCaught ∧
    mapGet? kid (doProcessNewObservation p env st o).1.local_pcs
        = some o.cloud ∧
    (doProcessNewObservation p env st o).1.accum_since_last_kf =
      st.accum_since_last_kf.comp env.icp_rel_pose ∧
    (doProcessNewObservation p env st o).1.accum_since_last_kf
        ≠ CPose3D.identity ∧
    (doProcessNewObservation p env st o).1.last_kf = st.last_kf := by
  rw [doProcess_accepted p env st o pc hacc hlp hconv]
  unfold odomCore
  dsimp only
  rw [if_pos ⟨hg, hd⟩]
  rw [promoteKF_factor_failure p env o
    { st with last_obs := some o, last_obs_tim := o.timestamp,
              last_points := some o.cloud,
              last_iter_twist := twistFromRel env.icp_rel_pose
                (computeDt st.last_obs_tim o.timestamp),
              accum_since_last_kf :=
                st.accum_since_last_kf.comp env.icp_rel_pose }
    kid hkf hkid hkv hlk hfs]
  refine ⟨rfl, ?_, rfl, ?_, rfl⟩
  · exact mapGet?_mapSet_self kid o.cloud _
  · exact ne_identity_of_normSq_pos _ (distGt_pos _ _ hd hmd)

/-- C10 witness: the torn promotion at a concrete factor-failure run. -/
theorem C10_half_applied_promotion_witness :
    (doProcessNewObservation c10p c10env c10st c10obs).2
        = TaskOutcome.exceptionCaught ∧
    mapGet? 4 (doProcessNewObservation c10p c10env c10st c10obs).1.local_pcs
        = some c10obs.cloud ∧
    (doProcessNewObservation c10p c10env c10st c10obs).1.accum_since_last_kf =
      c10st.accum_since_last_kf.comp c10env.icp_rel_pose ∧
    (doProcessNewObservation c10p c10env c10st c10obs).1.accum_since_last_kf
        ≠ CPose3D.identity ∧
    (doProcessNewObservation c10p c10env c10st c10obs).1.last_kf
        = c10st.last_kf :=
  C10_half_applied_promotion c10p c10env c10st c10obs 7 4 (by decide)
    (by decide) (by decide) (by decide) (by decide) (by decide) (by decide)
    (by decide) (by decide) (by decide) (by decide)

end LidarICP
